import Mathlib

/-!
Verification of the WhatsBox embedding example.

The development shallowly embeds the two components of the repository that the
claims concern:

* the Host Controller (the Vue application in `app.js`): its state object, the
  message listener `handleMessage`, the dispatcher `processMessage`, the token
  fetch `loadToken`, the sender `sendMessage`, and `logout`;
* the Token Exchange Service (the Express handler `POST /get-wa-token` in the
  server file): one upstream attempt with the secret attached as the
  `x-api-key` header.

JavaScript-specific semantics that the source relies on (truthiness of `||`,
`undefined` property reads, substring `includes`, `split('//')[1]`) are modelled
by small explicit helpers.  Exceptions are modelled by outcome data
(`ParseOutcome`, `TokenOutcome`, `UpstreamOutcome`); every operation is a total
function, mirroring the source's catch-all `try`/`catch` blocks which never let
an exception escape.  Ambient-environment reads (clock, whether
`iframe?.contentWindow` is available, the iframe's `src` origin, the outcome of
the platform's `JSON.parse`) are part of the state or of the event data.
-/

namespace WhatsbEmbed

/-! ## JavaScript string semantics helpers -/

/-- JS truthiness of a string-valued property: `undefined`/`null` (absent) and
the empty string are falsy. -/
def truthy : Option String → Bool
  | none => false
  | some s => !(s == "")

/-- JS `a || b` on two string-valued properties. -/
def jsOr (a b : Option String) : Option String :=
  if truthy a then a else b

/-- JS `a || d` where `d` is a string literal default, as used in template
interpolation such as `msg.reason || 'Unknown'`. -/
def jsOrStr (a : Option String) (d : String) : String :=
  match a with
  | none => d
  | some s => if s == "" then d else s

/-- Template-literal rendering of a possibly-`undefined` value: `undefined`
interpolates as the text "undefined". -/
def renderOpt : Option String → String
  | none => "undefined"
  | some s => s

/-- whether `t` is a prefix of `l` (character lists). -/
def charsPrefixOf : List Char → List Char → Bool
  | [], _ => true
  | _ :: _, [] => false
  | a :: as, b :: bs => a == b && charsPrefixOf as bs

/-- whether `t` occurs as a contiguous run inside `l` (character lists). -/
def charsInfixOf (t : List Char) : List Char → Bool
  | [] => charsPrefixOf t []
  | b :: bs => charsPrefixOf t (b :: bs) || charsInfixOf t bs

/-- JS `s.includes(t)`. -/
def strIncludes (s t : String) : Bool :=
  charsInfixOf t.data s.data

/-- the characters after the first occurrence of "//", if any.  For strings
containing exactly one "//" (every entry of the origin allow-list below) this
is JS `s.split('//')[1]`. -/
def afterDoubleSlash : List Char → Option (List Char)
  | [] => none
  | '/' :: '/' :: rest => some rest
  | _ :: rest => afterDoubleSlash rest

/-- JSON string escaping of one character (the cases relevant to the strings
this model handles). -/
def jsonEscapeChar (c : Char) : String :=
  if c == '"' then "\\\""
  else if c == '\\' then "\\\\"
  else if c == '\n' then "\\n"
  else if c == '\t' then "\\t"
  else if c == '\r' then "\\r"
  else String.singleton c

/-- JSON string escaping. -/
def jsonEscape (s : String) : String :=
  s.data.foldl (fun acc c => acc ++ jsonEscapeChar c) ""

/-- JSON rendering of a string value, `JSON.stringify` on a string. -/
def jsonQuote (s : String) : String :=
  "\"" ++ jsonEscape s ++ "\""

/-- comma-join of rendered fields. -/
def joinComma : List String → String
  | [] => ""
  | [x] => x
  | x :: y :: xs => x ++ "," ++ joinComma (y :: xs)

/-! ## Host Controller data model (`app.js`) -/

/-- `userCredentials` held in the controller state (`app.js` line 8): the three
fields entered by the user.  The role is one of the strings "User"/"Admin" in
the UI, but the controller treats it as opaque text. -/
structure Credentials where
  email : String
  name : String
  role : String
deriving Repr, DecidableEq

/-- a message object received across the window boundary, with the properties
that `handleMessage`/`processMessage` read.  `none` models an absent
(`undefined`) property. -/
structure MsgObj where
  type : Option String
  status : Option String
  action : Option String
  reason : Option String
  message : Option String
  error : Option String
deriving Repr, DecidableEq

/-- a log entry pushed by `logMessage` (`app.js` lines 120-127). -/
structure LogEntry where
  id : Nat
  text : String
  direction : String
  timestamp : String
deriving Repr, DecidableEq

/-- the Host Controller state (`app.js` `data()` lines 4-17 restricted to the
fields the verified operations touch), together with the ambient environment
the operations read:

* `iframeConnected` models whether `this.iframe?.contentWindow` is available
  (`false` covers both an unbound `iframe` and a `null` `contentWindow`);
* `iframeSrcOrigin` models `new URL(this.iframe.src).origin`;
* `now` models the ambient clock reading used for timestamps. -/
structure HState where
  iframeConnected : Bool
  iframeSrcOrigin : String
  iframeOrigin : Option String
  userCredentials : Credentials
  messages : List LogEntry
  messageIdCounter : Nat
  showLoading : Bool
  isAuthenticated : Bool
  now : String
deriving Repr, DecidableEq

/-- the object literals the controller sends: `{type:'ack', receivedType}`
(line 48), `{type:'user_credentials', credentials, timestamp}` (lines 67-71),
`{action:'login', data:{token}}` (line 95), `{action:'logout'}` (line 156). -/
inductive Outgoing where
  | ack (receivedType : Option String)
  | userCredentials (credentials : Credentials) (timestamp : String)
  | login (token : Option String)
  | logout
deriving Repr, DecidableEq

/-- one `postMessage` call observed at the window boundary: the message (the
source posts its JSON serialization, see `serialize`) and the target-origin
argument actually passed. -/
structure Post where
  message : Outgoing
  targetOrigin : String
deriving Repr, DecidableEq

/-- the outcome of the platform's `JSON.parse` on a string datum: the parsed
object, or the thrown `SyntaxError`'s `message`. -/
inductive ParseOutcome where
  | ok (m : MsgObj)
  | err (message : String)
deriving Repr, DecidableEq

/-- `event.data`: either a string (carried with its `JSON.parse` outcome,
since JSON parsing is platform functionality) or a native object. -/
inductive EventData where
  | str (raw : String) (parse : ParseOutcome)
  | obj (m : MsgObj)
deriving Repr, DecidableEq

/-- an incoming `message` event: its `origin` and its `data`. -/
structure Event where
  origin : String
  data : EventData
deriving Repr, DecidableEq

/-- JS property read `event.data.type`: a string datum has no `type` property
(the read yields `undefined`). -/
def dataType : EventData → Option String
  | .str _ _ => none
  | .obj m => m.type

/-- the `JSON.parse` normalization step of `handleMessage` line 57: a string is
parsed (possibly throwing), a native object passes through unchanged. -/
def parseData : EventData → ParseOutcome
  | .str _ p => p
  | .obj m => .ok m

/-- `JSON.stringify` of an outgoing object literal (field order as constructed
in the source; absent optional fields are skipped, as `JSON.stringify` skips
`undefined` properties). -/
def serialize : Outgoing → String
  | .ack rt =>
      "\x7b\"type\":\"ack\"" ++
        (match rt with
          | some r => ",\"receivedType\":" ++ jsonQuote r
          | none => "") ++ "\x7d"
  | .userCredentials c ts =>
      "\x7b\"type\":\"user_credentials\",\"credentials\":\x7b\"email\":" ++
        jsonQuote c.email ++ ",\"name\":" ++ jsonQuote c.name ++
        ",\"role\":" ++ jsonQuote c.role ++ "\x7d,\"timestamp\":" ++
        jsonQuote ts ++ "\x7d"
  | .login tok =>
      "\x7b\"action\":\"login\",\"data\":\x7b" ++
        (match tok with
          | some t => "\"token\":" ++ jsonQuote t
          | none => "") ++ "\x7d\x7d"
  | .logout => "\x7b\"action\":\"logout\"\x7d"

/-- one rendered field of a received object, skipped when absent. -/
def optField (k : String) (v : Option String) : List String :=
  match v with
  | some s => ["\"" ++ k ++ "\":" ++ jsonQuote s]
  | none => []

/-- `JSON.stringify` of a received message object (declared field order; the
sender's insertion order is not observable from this repository). -/
def stringifyMsgObj (m : MsgObj) : String :=
  "\x7b" ++
    joinComma (optField "type" m.type ++ optField "status" m.status ++
      optField "action" m.action ++ optField "reason" m.reason ++
      optField "message" m.message ++ optField "error" m.error) ++ "\x7d"

/-- `JSON.stringify(event.data)` as logged on line 54. -/
def dataStringify : EventData → String
  | .str raw _ => jsonQuote raw
  | .obj m => stringifyMsgObj m

/-! ## Host Controller operations (`app.js`) -/

/-- `logMessage(text, type)` (`app.js` lines 120-127): push one entry with the
monotone counter and the clock reading, then bump the counter.  (The
`$nextTick` scroll adjustment is pure UI plumbing.) -/
def logMessage (s : HState) (text : String) (direction : String) : HState :=
  { s with
      messages := s.messages ++
        [{ id := s.messageIdCounter, text := text, direction := direction,
           timestamp := s.now }],
      messageIdCounter := s.messageIdCounter + 1 }

/-- the target origin computed on `app.js` line 109:
`this.iframeOrigin || new URL(this.iframe.src).origin`.  The binding is dead in
the source: line 110 passes the literal `"*"` to `postMessage` instead. -/
def computedTargetOrigin (s : HState) : String :=
  jsOrStr s.iframeOrigin s.iframeSrcOrigin

/-- `sendMessage(msg)` (`app.js` lines 107-113): when `iframe?.contentWindow`
is available, post `JSON.stringify(msg)` with target origin `"*"` (the
`targetOrigin` binding of line 109, `computedTargetOrigin`, is computed but not
used by the post) and log a `Sent:` entry; otherwise do nothing. -/
def sendMessage (s : HState) (msg : Outgoing) : HState × List Post :=
  if s.iframeConnected then
    (logMessage s ("Sent: " ++ serialize msg) "sent",
     [{ message := msg, targetOrigin := "*" }])
  else (s, [])

/-- `hideLoading()` (`app.js` lines 115-118). -/
def hideLoading (s : HState) : HState :=
  { s with showLoading := false }

/-- the `switch` scrutinee of `app.js` line 65: `msg.status || msg.type`. -/
def discriminant (m : MsgObj) : Option String :=
  jsOr m.status m.type

/-- `processMessage(msg)` (`app.js` lines 64-90): the `switch` on
`msg.status || msg.type`, one case per recognized discriminant and no default
case. -/
def processMessage (s : HState) (m : MsgObj) : HState × List Post :=
  if discriminant m = some "auth_request" then
    sendMessage s (.userCredentials s.userCredentials s.now)
  else if discriminant m = some "auth_success" then
    (logMessage { s with isAuthenticated := true } "Authenticated" "received", [])
  else if discriminant m = some "auth_failure" then
    (logMessage s ("Auth failed: " ++ jsOrStr m.reason "Unknown") "error", [])
  else if discriminant m = some "ready" then
    (hideLoading s, [])
  else if discriminant m = some "success" then
    (logMessage s "Success" "received", [])
  else if discriminant m = some "error" then
    (logMessage s ("Error: " ++ renderOpt (jsOr m.message m.error)) "error", [])
  else (s, [])

/-- the allow-list of `app.js` line 51. -/
def allowedOrigins : List String :=
  ["https://app-qa.whatsbox.io", "https://app.whatsbox.io", "http://localhost:3000"]

/-- the origin check of `app.js` line 52:
`allowedOrigins.some(origin => event.origin.includes(origin.split('//')[1]))`
(each allow-list entry contains exactly one "//", so `split('//')[1]` is the
text after it). -/
def originAllowed (origin : String) : Bool :=
  allowedOrigins.any (fun a =>
    charsInfixOf ((afterDoubleSlash a.data).getD []) origin.data)

/-- `app.js` line 45: `if (!this.iframeOrigin) this.iframeOrigin = event.origin`
(JS truthiness: a `null` or empty captured origin is overwritten). -/
def captureOrigin (s : HState) (origin : String) : HState :=
  if truthy s.iframeOrigin then s else { s with iframeOrigin := some origin }

/-- `app.js` lines 47-49: acknowledge `EMBED_READY` (the reply carries
`receivedType: event.data.type`); any other datum sends nothing. -/
def ackStep (s : HState) (d : EventData) : HState × List Post :=
  if dataType d = some "EMBED_READY" then sendMessage s (.ack (dataType d))
  else (s, [])

/-- `app.js` lines 54-61, the part of `handleMessage` after the origin check
passes: log the `Received:` entry, normalize the datum (`JSON.parse` for
strings), and either dispatch it or log the `Parse error:` entry.  The
`try`/`catch` is modelled by `ParseOutcome`; nothing propagates to the
caller. -/
def afterOriginCheck (s : HState) (d : EventData) : HState × List Post :=
  match parseData d with
  | .ok m => processMessage (logMessage s ("Received: " ++ dataStringify d) "received") m
  | .err e =>
      (logMessage (logMessage s ("Received: " ++ dataStringify d) "received")
        ("Parse error: " ++ e) "error", [])

/-- `handleMessage(event)` (`app.js` lines 44-62): capture the first sender
origin, acknowledge `EMBED_READY` (before the origin check), then drop the
event unless its origin passes the allow-list, else log and dispatch it. -/
def handleMessage (s : HState) (ev : Event) : HState × List Post :=
  let s1 := captureOrigin s ev.origin
  let a := ackStep s1 ev.data
  if originAllowed ev.origin then
    let r := afterOriginCheck a.1 ev.data
    (r.1, a.2 ++ r.2)
  else (a.1, a.2)

/-- the outcome of the `axios.post('/get-wa-token', ...)` awaited by
`loadToken`: the `token` property of the response body (absent properties read
as `undefined`), or the thrown error's `message`. -/
inductive TokenOutcome where
  | success (token : Option String)
  | failure (errMessage : String)
deriving Repr, DecidableEq

/-- `loadToken()` (`app.js` lines 92-99): the request posts
`this.userCredentials`; on success send the login command carrying
`response.data.token`, on failure log one `Token error:` entry.  The
`try`/`catch` swallows every failure; nothing propagates to the caller. -/
def loadToken (s : HState) (outcome : TokenOutcome) : HState × List Post :=
  match outcome with
  | .success tok => sendMessage s (.login tok)
  | .failure e => (logMessage s ("Token error: " ++ e) "error", [])

/-- `logout()` (`app.js` lines 154-158): send the logout command and log
`Logout request sent`.  The authenticated flag is not touched. -/
def logout (s : HState) : HState × List Post :=
  let step := sendMessage s .logout
  (logMessage step.1 "Logout request sent" "sent", step.2)

/-! ## Token Exchange Service (`POST /get-wa-token`, server file lines 85-105) -/

/-- the request body fields the handler reads: `req.body.email`,
`req.body.name`, `req.body.role`. -/
structure ReqBody where
  email : String
  name : String
  role : String
deriving Repr, DecidableEq

/-- the JSON body the handler posts upstream (lines 88-92): exactly the three
forwarded fields, nothing else. -/
structure UpstreamBody where
  email : String
  name : String
  role : String
deriving Repr, DecidableEq

/-- one upstream request as issued by `axios.post` (lines 87-94): URL, JSON
body, and request headers. -/
structure UpstreamRequest where
  url : String
  body : UpstreamBody
  headers : List (String × String)
deriving Repr, DecidableEq

/-- the outcome of the awaited upstream call: the response body
(`response.data`, an opaque document returned to the caller unmodified), or a
failure (non-2xx status, unreachable host, timeout — axios throws in all three
cases) carrying the thrown error's `message`. -/
inductive UpstreamOutcome where
  | ok (data : String)
  | err (message : String)
deriving Repr, DecidableEq

/-- the axios error value caught on line 97: its `message`, and its `config`
property, which axios sets to the full request configuration of the failed
call — URL, body and headers, the `x-api-key` header included. -/
structure AxiosError where
  message : String
  config : UpstreamRequest
deriving Repr, DecidableEq

/-- the body of the HTTP response returned to the caller: the upstream body
passed through by `res.json(response.data)` (line 96), or the failure document
of lines 99-103. -/
inductive RespBody where
  | passthrough (data : String)
  | failureJson (success : Bool) (message : String) (error : String)
deriving Repr, DecidableEq

/-- the HTTP response returned to the caller. -/
structure HttpResponse where
  status : Nat
  body : RespBody
deriving Repr, DecidableEq

/-- one `console.error` call made by the handler (line 98): the literal tag
string and the caught error value. -/
structure ServerLogEntry where
  tag : String
  err : AxiosError
deriving Repr, DecidableEq

/-- everything observable about one run of the handler: the upstream requests
it issued, the HTTP response it returned, and its log output. -/
structure HandlerResult where
  upstreamRequests : List UpstreamRequest
  response : HttpResponse
  logs : List ServerLogEntry
deriving Repr, DecidableEq

/-- the `POST /get-wa-token` handler (server file lines 85-105), given the
configured upstream base URL `apiUrl` (`WA_API_URL`), the secret `apiKey`
(`WA_API_KEY`), the request body, and the upstream outcome.  Exactly one
`axios.post` is issued (no retry); its body carries the three forwarded fields
and its only header attaches the secret.  On success the upstream body is
returned unmodified with the default status 200; on any failure the `catch`
logs `Error fetching WA token:` with the full error value and answers 500 with
`{success:false, message:'Failed to fetch WA token', error: error.message}`.
The handler never throws: the `try`/`catch` spans its whole body. -/
def getWaToken (apiUrl apiKey : String) (body : ReqBody)
    (outcome : UpstreamOutcome) : HandlerResult :=
  let req : UpstreamRequest :=
    { url := apiUrl ++ "/auth/generate-auth-token",
      body := { email := body.email, name := body.name, role := body.role },
      headers := [("x-api-key", apiKey)] }
  match outcome with
  | .ok data =>
      { upstreamRequests := [req],
        response := { status := 200, body := .passthrough data },
        logs := [] }
  | .err m =>
      { upstreamRequests := [req],
        response :=
          { status := 500,
            body := .failureJson false "Failed to fetch WA token" m },
        logs := [{ tag := "Error fetching WA token:",
                   err := { message := m, config := req } }] }

/-- whether a secret string occurs in the text of a response body. -/
def respBodyMentions (b : RespBody) (secret : String) : Bool :=
  match b with
  | .passthrough d => strIncludes d secret
  | .failureJson _ m e => strIncludes m secret || strIncludes e secret

/-! ## Spec-side definitions used to state the claims -/

/-- the recognized discriminant set of the dispatcher (spec section 4.2 and
claim C8). -/
def recognizedDiscriminants : List String :=
  ["auth_request", "auth_success", "auth_failure", "ready", "success", "error"]

/-- the discriminant as the spec words it for claim C8: `status` if present,
else `type` — written from the spec's words, to be compared with the source's
`discriminant` (which uses JS truthiness, so a present-but-empty `status`
falls through to `type`). -/
def specDiscriminant (m : MsgObj) : Option String :=
  match m.status with
  | some st => some st
  | none => m.type

/-- whether the source's discriminant of `m` lands in the recognized set. -/
def discRecognized (m : MsgObj) : Bool :=
  match discriminant m with
  | some d => recognizedDiscriminants.contains d
  | none => false

/-- whether a post is an ack reply carrying `receivedType: "EMBED_READY"`. -/
def isAckPost (p : Post) : Bool :=
  match p.message with
  | .ack rt => rt == some "EMBED_READY"
  | _ => false

/-! ## Basic lemmas about the operations -/

lemma captureOrigin_iframeConnected (s : HState) (o : String) :
    (captureOrigin s o).iframeConnected = s.iframeConnected := by
  unfold captureOrigin; split <;> rfl

lemma captureOrigin_messages (s : HState) (o : String) :
    (captureOrigin s o).messages = s.messages := by
  unfold captureOrigin; split <;> rfl

lemma captureOrigin_messageIdCounter (s : HState) (o : String) :
    (captureOrigin s o).messageIdCounter = s.messageIdCounter := by
  unfold captureOrigin; split <;> rfl

lemma captureOrigin_now (s : HState) (o : String) :
    (captureOrigin s o).now = s.now := by
  unfold captureOrigin; split <;> rfl

lemma logMessage_iframeConnected (s : HState) (t d : String) :
    (logMessage s t d).iframeConnected = s.iframeConnected := rfl

lemma logMessage_isAuthenticated (s : HState) (t d : String) :
    (logMessage s t d).isAuthenticated = s.isAuthenticated := rfl

lemma sendMessage_posts (s : HState) (msg : Outgoing) :
    (sendMessage s msg).2 =
      if s.iframeConnected then [{ message := msg, targetOrigin := "*" }]
      else [] := by
  unfold sendMessage; split <;> rfl

lemma sendMessage_isAuthenticated (s : HState) (msg : Outgoing) :
    (sendMessage s msg).1.isAuthenticated = s.isAuthenticated := by
  unfold sendMessage; split <;> rfl

lemma sendMessage_of_disconnected (s : HState) (msg : Outgoing)
    (h : s.iframeConnected = false) : sendMessage s msg = (s, []) := by
  unfold sendMessage; rw [h]; rfl

lemma processMessage_no_ack (s : HState) (m : MsgObj) :
    ((processMessage s m).2).filter isAckPost = [] := by
  unfold processMessage
  split_ifs <;> try rfl
  rw [sendMessage_posts]; split <;> rfl

lemma processMessage_posts_disconnected (s : HState) (m : MsgObj)
    (h : s.iframeConnected = false) : (processMessage s m).2 = [] := by
  unfold processMessage
  split_ifs <;> try rfl
  rw [sendMessage_posts, h]; rfl

lemma afterOriginCheck_no_ack (s : HState) (d : EventData) :
    ((afterOriginCheck s d).2).filter isAckPost = [] := by
  unfold afterOriginCheck
  cases parseData d
  · exact processMessage_no_ack _ _
  · rfl

lemma afterOriginCheck_posts_disconnected (s : HState) (d : EventData)
    (h : s.iframeConnected = false) : (afterOriginCheck s d).2 = [] := by
  unfold afterOriginCheck
  cases parseData d
  · exact processMessage_posts_disconnected _ _ (by rw [logMessage_iframeConnected]; exact h)
  · rfl

/-! ## Concrete states and inputs used by witnesses and counterexamples -/

/-- a controller state with a bound iframe and a captured sender origin. -/
def c1State : HState :=
  { iframeConnected := true, iframeSrcOrigin := "https://app.whatsbox.io",
    iframeOrigin := some "https://app.whatsbox.io",
    userCredentials := { email := "a@b.com", name := "A", role := "User" },
    messages := [], messageIdCounter := 0, showLoading := false,
    isAuthenticated := false, now := "t0" }

/-- a controller state before the iframe is bound (`iframe?.contentWindow`
unavailable). -/
def c3CexState : HState :=
  { iframeConnected := false, iframeSrcOrigin := "https://app.whatsbox.io",
    iframeOrigin := none,
    userCredentials := { email := "a@b.com", name := "A", role := "User" },
    messages := [], messageIdCounter := 0, showLoading := true,
    isAuthenticated := false, now := "t0" }

/-- an `EMBED_READY` event from the production widget origin. -/
def c3ReadyEvent : Event :=
  { origin := "https://app.whatsbox.io",
    data := .obj
      { type := some "EMBED_READY", status := none, action := none,
        reason := none, message := none, error := none } }

/-- a connected controller state used by the C3 witness. -/
def c3WitState : HState :=
  { iframeConnected := true, iframeSrcOrigin := "https://app.whatsbox.io",
    iframeOrigin := none,
    userCredentials := { email := "a@b.com", name := "A", role := "User" },
    messages := [], messageIdCounter := 0, showLoading := true,
    isAuthenticated := false, now := "t0" }

/-- an `EMBED_READY` event from an origin outside the allow-list: the ack is
still sent. -/
def c3UntrustedReadyEvent : Event :=
  { origin := "https://evil.example.com",
    data := .obj
      { type := some "EMBED_READY", status := none, action := none,
        reason := none, message := none, error := none } }

/-- a connected controller state used by the C4 witness. -/
def c4State : HState :=
  { iframeConnected := true, iframeSrcOrigin := "https://app.whatsbox.io",
    iframeOrigin := some "https://app.whatsbox.io",
    userCredentials := { email := "a@b.com", name := "A", role := "User" },
    messages := [], messageIdCounter := 0, showLoading := false,
    isAuthenticated := false, now := "t0" }

/-- a message event from an allowed origin whose string datum is not valid
JSON (`JSON.parse` throws). -/
def c4Event : Event :=
  { origin := "https://app.whatsbox.io",
    data := .str "not json" (.err "Unexpected token o in JSON at position 1") }

/-- a connected controller state with credentials, used by the C6 witness. -/
def c6WitState : HState :=
  { iframeConnected := true, iframeSrcOrigin := "https://app.whatsbox.io",
    iframeOrigin := some "https://app.whatsbox.io",
    userCredentials := { email := "a@b.com", name := "A", role := "User" },
    messages := [], messageIdCounter := 0, showLoading := false,
    isAuthenticated := false, now := "t0" }

/-- a state with credentials but no available content window, for the C6
counterexample. -/
def c6CexState : HState :=
  { iframeConnected := false, iframeSrcOrigin := "https://app.whatsbox.io",
    iframeOrigin := none,
    userCredentials := { email := "a@b.com", name := "A", role := "User" },
    messages := [], messageIdCounter := 0, showLoading := false,
    isAuthenticated := false, now := "t0" }

/-- an unauthenticated state, for the C8 counterexample. -/
def c8CexState : HState :=
  { iframeConnected := true, iframeSrcOrigin := "https://app.whatsbox.io",
    iframeOrigin := some "https://app.whatsbox.io",
    userCredentials := { email := "a@b.com", name := "A", role := "User" },
    messages := [], messageIdCounter := 0, showLoading := false,
    isAuthenticated := false, now := "t0" }

/-- a message whose `status` is present but empty: the spec-worded
discriminant is `""`, but the source's `||` falls through to `type`. -/
def c8CexMsg : MsgObj :=
  { type := some "auth_success", status := some "", action := none,
    reason := none, message := none, error := none }

/-- a state for the C8 witness. -/
def c8WitState : HState :=
  { iframeConnected := true, iframeSrcOrigin := "https://app.whatsbox.io",
    iframeOrigin := some "https://app.whatsbox.io",
    userCredentials := { email := "a@b.com", name := "A", role := "User" },
    messages := [], messageIdCounter := 3, showLoading := false,
    isAuthenticated := true, now := "t1" }

/-- a message carrying an unrecognized discriminant. -/
def c8WitMsg : MsgObj :=
  { type := some "heartbeat", status := none, action := none,
    reason := none, message := none, error := none }

/-- an authenticated, connected state, for C9. -/
def c9State : HState :=
  { iframeConnected := true, iframeSrcOrigin := "https://app.whatsbox.io",
    iframeOrigin := some "https://app.whatsbox.io",
    userCredentials := { email := "a@b.com", name := "A", role := "User" },
    messages := [], messageIdCounter := 0, showLoading := false,
    isAuthenticated := true, now := "t0" }

/-- the widget's confirmation of a logout:
`{type:'embed-login', action:'logout', status:'success'}` from the allowed
production origin. -/
def c9SuccessEvent : Event :=
  { origin := "https://app.whatsbox.io",
    data := .obj
      { type := some "embed-login", status := some "success",
        action := some "logout", reason := none, message := none,
        error := none } }

/-- the dispatched form of `c9SuccessEvent`'s datum. -/
def c9SuccessMsg : MsgObj :=
  { type := some "embed-login", status := some "success",
    action := some "logout", reason := none, message := none, error := none }

/-- a disconnected state for the C10 witness. -/
def c10State : HState :=
  { iframeConnected := false, iframeSrcOrigin := "https://app.whatsbox.io",
    iframeOrigin := none,
    userCredentials := { email := "a@b.com", name := "A", role := "User" },
    messages := [], messageIdCounter := 0, showLoading := true,
    isAuthenticated := false, now := "t0" }

/-! ## Claims -/

/-- C1 (amended): `sendMessage` computes a target origin on line 109 (the
captured `iframeOrigin` when truthy, else the origin of the iframe's `src`
URL), but the value is unused: every `postMessage` — credentials- and
token-bearing commands included — is issued with the wildcard `"*"` as its
target origin. -/
theorem sendMessage_posts_wildcard (s : HState) (msg : Outgoing)
    (h : s.iframeConnected = true) :
    (sendMessage s msg).2 = [{ message := msg, targetOrigin := "*" }] := by
  rw [sendMessage_posts, h]; rfl

/-- C1 witness: in a connected state a token-bearing login command is posted,
with target origin `"*"`. -/
theorem sendMessage_posts_wildcard_witness :
    c1State.iframeConnected = true ∧
    (sendMessage c1State (.login (some "T1"))).2 =
      [{ message := .login (some "T1"), targetOrigin := "*" }] :=
  ⟨rfl, sendMessage_posts_wildcard c1State (.login (some "T1")) rfl⟩

/-- C1 counterexample: with `iframeOrigin` already captured as the production
widget origin, posting a token-bearing login command still uses target origin
`"*"`, not the captured origin — refuting the claim that the post uses the
captured `iframeOrigin` and is never the wildcard. -/
theorem sendMessage_ignores_pinned_origin_cex :
    c1State.iframeOrigin = some "https://app.whatsbox.io" ∧
    computedTargetOrigin c1State = "https://app.whatsbox.io" ∧
    (sendMessage c1State (.login (some "T1"))).2.map Post.targetOrigin = ["*"] ∧
    ("*" : String) ≠ "https://app.whatsbox.io" := by
  refine ⟨rfl, rfl, rfl, ?_⟩
  decide

/-- C2 (code bug evidence): when the upstream call fails, the handler's
`console.error('Error fetching WA token:', error)` logs the entire axios error
value, whose `config.headers` carries the `x-api-key` header — the secret
reaches the log — while the HTTP response body returned to the caller does not
contain the secret. -/
theorem getWaToken_error_log_contains_secret :
    ((getWaToken "https://api.example.com" "sk-test-secret-XYZ"
        { email := "a@b.com", name := "A", role := "User" }
        (.err "Request failed with status code 500")).logs.map
      (fun l => l.err.config.headers)) =
      [[("x-api-key", "sk-test-secret-XYZ")]] ∧
    respBodyMentions
      (getWaToken "https://api.example.com" "sk-test-secret-XYZ"
        { email := "a@b.com", name := "A", role := "User" }
        (.err "Request failed with status code 500")).response.body
      "sk-test-secret-XYZ" = false := by
  constructor
  · rfl
  · decide

/-- C3 (amended): provided the iframe's content window is available, every
incoming event whose data has type `EMBED_READY` produces exactly one ack
reply carrying `receivedType: "EMBED_READY"`, and the ack is the first post —
issued before (hence regardless of the outcome of) the allowed-origins check,
which this statement does not assume anything about.  When the content window
is unavailable, `sendMessage` drops the ack (see C10). -/
theorem handleMessage_embedReady_ack_first (s : HState) (ev : Event)
    (hc : s.iframeConnected = true)
    (hd : dataType ev.data = some "EMBED_READY") :
    (handleMessage s ev).2.head? =
      some { message := Outgoing.ack (some "EMBED_READY"), targetOrigin := "*" } ∧
    ((handleMessage s ev).2.filter isAckPost).length = 1 := by
  have hc1 : (captureOrigin s ev.origin).iframeConnected = true := by
    rw [captureOrigin_iframeConnected]; exact hc
  have hack : (ackStep (captureOrigin s ev.origin) ev.data).2 =
      [{ message := Outgoing.ack (some "EMBED_READY"), targetOrigin := "*" }] := by
    unfold ackStep
    rw [hd, if_pos rfl, sendMessage_posts, hc1]
    rfl
  simp only [handleMessage]
  cases ho : originAllowed ev.origin
  · rw [if_neg Bool.false_ne_true, hack]
    exact ⟨rfl, rfl⟩
  · rw [if_pos rfl, hack]
    refine ⟨rfl, ?_⟩
    rw [List.filter_append, afterOriginCheck_no_ack, List.append_nil]
    rfl

/-- C3 witness: a ready event from an origin outside the allow-list, in a
connected state: the ack is still sent, exactly once, first. -/
theorem handleMessage_embedReady_ack_first_witness :
    c3WitState.iframeConnected = true ∧
    dataType c3UntrustedReadyEvent.data = some "EMBED_READY" ∧
    ((handleMessage c3WitState c3UntrustedReadyEvent).2.head? =
      some { message := Outgoing.ack (some "EMBED_READY"), targetOrigin := "*" } ∧
    ((handleMessage c3WitState c3UntrustedReadyEvent).2.filter isAckPost).length = 1) :=
  ⟨rfl, rfl,
    handleMessage_embedReady_ack_first c3WitState c3UntrustedReadyEvent rfl rfl⟩

/-- C3 counterexample: in a state where the content window is unavailable, an
`EMBED_READY` event produces no post at all — no ack is sent, refuting the
unconditional "sends exactly one ack reply". -/
theorem handleMessage_embedReady_ack_dropped_cex :
    dataType c3ReadyEvent.data = some "EMBED_READY" ∧
    (handleMessage c3CexState c3ReadyEvent).2 = [] := by
  constructor
  · rfl
  · decide

/-- C4: for every incoming event from an allowed origin whose data is a string
that is not valid JSON (`JSON.parse` throws, modelled by `ParseOutcome.err`),
`handleMessage` appends the `Received:` entry and then one `Parse error:`
entry, posts nothing, and returns normally — it is a total function; the
source's `catch` confines the exception. -/
theorem handleMessage_parse_error_logged (s : HState) (ev : Event)
    (raw emsg : String)
    (ha : originAllowed ev.origin = true)
    (hd : ev.data = .str raw (.err emsg)) :
    (handleMessage s ev).1.messages =
      s.messages ++
        [{ id := s.messageIdCounter, text := "Received: " ++ jsonQuote raw,
           direction := "received", timestamp := s.now },
         { id := s.messageIdCounter + 1, text := "Parse error: " ++ emsg,
           direction := "error", timestamp := s.now }] ∧
    (handleMessage s ev).2 = [] := by
  have hack : ackStep (captureOrigin s ev.origin) ev.data =
      (captureOrigin s ev.origin, []) := by
    unfold ackStep
    rw [hd]
    rfl
  simp only [handleMessage, hack, ha, if_true]
  unfold afterOriginCheck
  rw [hd]
  constructor
  · simp [logMessage, captureOrigin_messages, captureOrigin_messageIdCounter,
      captureOrigin_now, parseData, dataStringify]
  · rfl

/-- C4 witness: the malformed-JSON event `c4Event` in the state `c4State`
appends the two entries and posts nothing. -/
theorem handleMessage_parse_error_logged_witness :
    originAllowed c4Event.origin = true ∧
    c4Event.data = .str "not json" (.err "Unexpected token o in JSON at position 1") ∧
    ((handleMessage c4State c4Event).1.messages =
      c4State.messages ++
        [{ id := c4State.messageIdCounter,
           text := "Received: " ++ jsonQuote "not json",
           direction := "received", timestamp := c4State.now },
         { id := c4State.messageIdCounter + 1,
           text := "Parse error: " ++ "Unexpected token o in JSON at position 1",
           direction := "error", timestamp := c4State.now }] ∧
    (handleMessage c4State c4Event).2 = []) :=
  ⟨by decide, rfl,
    handleMessage_parse_error_logged c4State c4Event "not json"
      "Unexpected token o in JSON at position 1" (by decide) rfl⟩

/-- C5: every run of the `POST /get-wa-token` handler issues exactly one
upstream request; its JSON body carries exactly the three forwarded fields
`email`, `name`, `role`; the secret is attached only as the `x-api-key`
request header and the upstream body is independent of the secret; and on
upstream success the upstream response body is returned to the caller
unmodified (status 200). -/
theorem getWaToken_single_request_passthrough (apiUrl apiKey k1 k2 : String)
    (body : ReqBody) (outcome : UpstreamOutcome) (data : String) :
    (getWaToken apiUrl apiKey body outcome).upstreamRequests =
      [{ url := apiUrl ++ "/auth/generate-auth-token",
         body := { email := body.email, name := body.name, role := body.role },
         headers := [("x-api-key", apiKey)] }] ∧
    (getWaToken apiUrl apiKey body (.ok data)).response =
      { status := 200, body := .passthrough data } ∧
    (getWaToken apiUrl k1 body outcome).upstreamRequests.map UpstreamRequest.body =
      (getWaToken apiUrl k2 body outcome).upstreamRequests.map UpstreamRequest.body := by
  refine ⟨?_, rfl, ?_⟩ <;> cases outcome <;> rfl

/-- C6 (amended): provided the iframe's content window is available,
`loadToken` on a successful token response `{token: t}` sends exactly one
login command whose `data.token` equals `t` (in particular `t = "abc"`); when
the content window is unavailable the command is dropped (see C10). -/
theorem loadToken_success_sends_login (s : HState) (t : String)
    (h : s.iframeConnected = true) :
    (loadToken s (.success (some t))).2 =
      [{ message := Outgoing.login (some t), targetOrigin := "*" }] := by
  unfold loadToken
  rw [sendMessage_posts, h]
  rfl

/-- C6 witness: upstream returns `{token:"abc"}` in a connected state with
credentials: exactly one login command with `data.token = "abc"` is posted. -/
theorem loadToken_success_sends_login_witness :
    c6WitState.iframeConnected = true ∧
    (loadToken c6WitState (.success (some "abc"))).2 =
      [{ message := Outgoing.login (some "abc"), targetOrigin := "*" }] :=
  ⟨rfl, loadToken_success_sends_login c6WitState "abc" rfl⟩

/-- C6 counterexample: in a state with credentials but no available content
window, a successful token response `{token:"abc"}` results in no login
command at all — refuting the unconditional "exactly one login Command is
sent". -/
theorem loadToken_success_dropped_cex :
    c6CexState.iframeConnected = false ∧
    (loadToken c6CexState (.success (some "abc"))).2 = [] := by
  constructor
  · rfl
  · decide

/-- C7: when the token request fails (any failure outcome, e.g. HTTP 500),
`loadToken` leaves the authenticated flag unchanged, appends exactly one error
log entry (`Token error:` with the thrown error's message), sends no command,
and — being a total function whose `catch` is modelled by the
`TokenOutcome.failure` branch — lets no exception propagate to its caller. -/
theorem loadToken_failure_preserves_state (s : HState) (e : String) :
    (loadToken s (.failure e)).1.isAuthenticated = s.isAuthenticated ∧
    (loadToken s (.failure e)).1.messages =
      s.messages ++
        [{ id := s.messageIdCounter, text := "Token error: " ++ e,
           direction := "error", timestamp := s.now }] ∧
    (loadToken s (.failure e)).2 = [] :=
  ⟨rfl, rfl, rfl⟩

/-- C8 (amended): the source's discriminant is `msg.status || msg.type` under
JS truthiness — `status` when present and non-empty, else `type` (a
present-but-empty `status` falls through, unlike the claim's "status if
present, else type").  Whenever that discriminant is outside the recognized
set, `processMessage` returns the state completely unchanged and sends no
message. -/
theorem processMessage_unrecognized_noop (s : HState) (m : MsgObj)
    (h : discRecognized m = false) :
    processMessage s m = (s, []) := by
  have hrec : ∀ d, discriminant m = some d →
      recognizedDiscriminants.contains d = false := by
    intro d hd
    unfold discRecognized at h
    rw [hd] at h
    exact h
  unfold processMessage
  split_ifs with h1 h2 h3 h4 h5 h6
  · exact absurd (hrec _ h1) (by decide)
  · exact absurd (hrec _ h2) (by decide)
  · exact absurd (hrec _ h3) (by decide)
  · exact absurd (hrec _ h4) (by decide)
  · exact absurd (hrec _ h5) (by decide)
  · exact absurd (hrec _ h6) (by decide)
  · rfl

/-- C8 witness: a `heartbeat` message leaves a concrete state untouched. -/
theorem processMessage_unrecognized_noop_witness :
    discRecognized c8WitMsg = false ∧
    processMessage c8WitState c8WitMsg = (c8WitState, []) :=
  ⟨by decide, processMessage_unrecognized_noop c8WitState c8WitMsg (by decide)⟩

/-- C8 counterexample: the message `{status:"", type:"auth_success"}` has the
claim's discriminant `""` (status is present), which is outside the recognized
set, yet `processMessage` is not a no-op on it: the JS `||` skips the falsy
empty status, dispatches on `auth_success`, and sets the authenticated
flag. -/
theorem processMessage_empty_status_cex :
    specDiscriminant c8CexMsg = some "" ∧
    recognizedDiscriminants.contains "" = false ∧
    c8CexState.isAuthenticated = false ∧
    (processMessage c8CexState c8CexMsg).1.isAuthenticated = true := by
  refine ⟨rfl, rfl, rfl, ?_⟩
  decide

/-- C9 (amended): `logout()` sends a logout command (posted when the iframe's
content window is available) without modifying the authenticated flag; but the
flag is not cleared upon subsequently receiving the
`embed-login`/`logout`/`success` event either — the `success` case of the
dispatcher only appends a `Success` log entry and leaves the flag exactly as
it was. -/
theorem logout_auth_flag_and_success_event (s : HState) (m : MsgObj)
    (hc : s.iframeConnected = true)
    (hm : discriminant m = some "success") :
    (logout s).1.isAuthenticated = s.isAuthenticated ∧
    (logout s).2 = [{ message := Outgoing.logout, targetOrigin := "*" }] ∧
    (processMessage s m).1.isAuthenticated = s.isAuthenticated ∧
    (processMessage s m).1.messages =
      s.messages ++
        [{ id := s.messageIdCounter, text := "Success",
           direction := "received", timestamp := s.now }] := by
  have hpm : processMessage s m = (logMessage s "Success" "received", []) := by
    unfold processMessage
    split_ifs with h1 h2 h3 h4
    · rw [hm] at h1; exact absurd h1 (by decide)
    · rw [hm] at h2; exact absurd h2 (by decide)
    · rw [hm] at h3; exact absurd h3 (by decide)
    · rw [hm] at h4; exact absurd h4 (by decide)
    · rfl
  refine ⟨?_, ?_, ?_, ?_⟩
  · simp only [logout]
    rw [logMessage_isAuthenticated, sendMessage_isAuthenticated]
  · simp only [logout]
    rw [sendMessage_posts, hc]
    rfl
  · rw [hpm, logMessage_isAuthenticated]
  · rw [hpm]
    rfl

/-- C9 witness: in the connected authenticated state `c9State`, `logout`
preserves the flag and posts the logout command, and dispatching the
`success`-status confirmation message also preserves the flag while logging
`Success`. -/
theorem logout_auth_flag_and_success_event_witness :
    c9State.iframeConnected = true ∧
    discriminant c9SuccessMsg = some "success" ∧
    ((logout c9State).1.isAuthenticated = c9State.isAuthenticated ∧
    (logout c9State).2 = [{ message := Outgoing.logout, targetOrigin := "*" }] ∧
    (processMessage c9State c9SuccessMsg).1.isAuthenticated = c9State.isAuthenticated ∧
    (processMessage c9State c9SuccessMsg).1.messages =
      c9State.messages ++
        [{ id := c9State.messageIdCounter, text := "Success",
           direction := "received", timestamp := c9State.now }]) :=
  ⟨rfl, by decide,
    logout_auth_flag_and_success_event c9State c9SuccessMsg rfl (by decide)⟩

/-- C9 counterexample: with the authenticated flag set, receiving the widget's
`{type:'embed-login', action:'logout', status:'success'}` confirmation from the
allowed production origin leaves the flag set — the controller never clears
it, refuting "the authenticated flag is cleared upon subsequently receiving
the corresponding embed-login/logout/success event". -/
theorem success_event_does_not_clear_auth_cex :
    c9State.isAuthenticated = true ∧
    originAllowed c9SuccessEvent.origin = true ∧
    (handleMessage c9State c9SuccessEvent).1.isAuthenticated = true := by
  refine ⟨rfl, by decide, ?_⟩
  decide

/-- C10: whenever the iframe's content window is unavailable (`iframe` unbound
or `contentWindow` null), `sendMessage` silently does nothing — the state is
returned unchanged (in particular no `Sent:` log entry is appended) and
nothing is posted; consequently `handleMessage` posts nothing in such states
(the `EMBED_READY` ack included) and a successful token fetch posts no login
command. -/
theorem sendMessage_noop_when_disconnected (s : HState) (msg : Outgoing)
    (ev : Event) (tok : Option String)
    (h : s.iframeConnected = false) :
    sendMessage s msg = (s, []) ∧
    (handleMessage s ev).2 = [] ∧
    (loadToken s (.success tok)).2 = [] := by
  have hc1 : (captureOrigin s ev.origin).iframeConnected = false := by
    rw [captureOrigin_iframeConnected]; exact h
  refine ⟨sendMessage_of_disconnected s msg h, ?_, ?_⟩
  · have hack : ackStep (captureOrigin s ev.origin) ev.data =
        (captureOrigin s ev.origin, []) := by
      unfold ackStep
      split
      · exact sendMessage_of_disconnected _ _ hc1
      · rfl
    simp only [handleMessage, hack]
    cases ho : originAllowed ev.origin
    · rw [if_neg Bool.false_ne_true]
    · rw [if_pos rfl]
      rw [afterOriginCheck_posts_disconnected _ _ hc1]
      rfl
  · unfold loadToken
    rw [sendMessage_posts, h]
    rfl

/-- C10 witness: in the unbound state `c10State`, `sendMessage` is a no-op,
the `EMBED_READY` ack is dropped, and a successful token fetch posts
nothing. -/
theorem sendMessage_noop_when_disconnected_witness :
    c10State.iframeConnected = false ∧
    (sendMessage c10State .logout = (c10State, []) ∧
    (handleMessage c10State c3UntrustedReadyEvent).2 = [] ∧
    (loadToken c10State (.success (some "T1"))).2 = []) :=
  ⟨rfl,
    sendMessage_noop_when_disconnected c10State .logout c3UntrustedReadyEvent
      (some "T1") rfl⟩

end WhatsbEmbed
